import Mathlib

/-!
Shallow embedding of the resource-modeling engine of the `sa` crate
(file-transfer-server capacity analyzer), together with proofs about it.

Conventions of the embedding:
* `f64` values are modelled as exact rationals (`ℚ`); the source performs
  only field arithmetic, `min`/`max`, `floor`/`ceil`/`round` and comparisons.
* Rust `x as usize` on the nonnegative finite values produced here truncates,
  i.e. it is `Int.toNat ∘ Int.floor`; `x as i32` on the integral results of
  `f64::ceil` is `Int.ceil`.
* `f64::ln`, used only by `calculate_file_size_factor` for average file sizes
  in `(10, 100]`, is transcendental and is threaded through as an explicit
  parameter `rln : ℚ → ℚ`; every concrete profile evaluated below stays out
  of that branch, and the universal theorems hold for every `rln`.
* Status / risk / bottleneck / uptime labels, which the source carries as
  (colored) strings, are modelled as inductive tags; display-only fields
  (scenario names, recommendation strings, the resource-breakdown text) are
  omitted as pure presentation.
* `disk_type` and `complexity` stay `String`s because the source matches on
  strings with a fallthrough default branch.
-/

namespace SA

/-- Workload profile, after the excluded CLI validation layer (`args.rs`,
struct `Args`): total RAM in GB, CPU cores, network Gbps, disk type string,
average file size in MB, expected connections, burst multiplier, the two
feature flags and the complexity class string. -/
structure Args where
  total_ram : ℚ
  cpu_cores : ℕ
  net_gbps : ℚ
  disk_type : String
  avg_file_size : ℚ
  expected_connections : ℕ
  burst_factor : ℚ
  enable_memory_guard : Bool
  enable_memory_mapping : Bool
  complexity : String

/-- Rust `q as usize` for the nonnegative finite `f64` values cast in this
program: truncation toward zero, with negatives saturating at 0. -/
def ratToUsize (q : ℚ) : ℕ := (⌊q⌋).toNat

/-! ### Metaspace estimator (`analysis/mod.rs`) -/

/-- `BASE_METASPACE`: base metaspace size in MB. -/
def BASE_METASPACE : ℚ := 256

/-- `CONNECTION_FACTOR`: MB added per 1000 connections. -/
def CONNECTION_FACTOR : ℚ := 30

/-- `FILE_SIZE_FACTOR`: MB added per 100 MB of file size. -/
def FILE_SIZE_FACTOR : ℚ := 20

/-- `THREAD_FACTOR`: MB added per thread. -/
def THREAD_FACTOR : ℚ := 1

/-- `MIN_METASPACE`: lower clamp bound in MB. -/
def MIN_METASPACE : ℚ := 128

/-- `MAX_METASPACE`: upper clamp bound in MB. -/
def MAX_METASPACE : ℚ := 3072

/-- `CONNECTIONS_BASE`: connection-count step base. -/
def CONNECTIONS_BASE : ℚ := 1000

/-- `get_complexity_factor` (`mod.rs:23`): complexity multiplier, with the
large-file case only reachable for the fallthrough (medium) complexity. -/
def get_complexity_factor (args : Args) : ℚ :=
  if args.complexity = "high" then 1.5
  else if args.complexity = "low" then 0.8
  else if args.avg_file_size > 50 then 1.3
  else 1

/-- `get_safety_margin` (`mod.rs:33`): safety margin chosen from file size. -/
def get_safety_margin (args : Args) : ℚ :=
  if args.avg_file_size > 100 then 1.5
  else if args.avg_file_size > 50 then 1.4
  else 1.3

/-- `calculate_base_metaspace` (`mod.rs:42`): complexity-scaled base plus
1 MB per thread at 2 threads per core. -/
def calculate_base_metaspace (args : Args) : ℚ :=
  BASE_METASPACE * get_complexity_factor args
    + ((args.cpu_cores * 2 : ℕ) : ℚ) * THREAD_FACTOR

/-- `calculate_connection_factor` (`mod.rs:52`): 30 MB per full 1000
expected connections. -/
def calculate_connection_factor (args : Args) : ℚ :=
  ((⌊((args.expected_connections : ℚ)) / CONNECTIONS_BASE⌋ : ℤ) : ℚ)
    * CONNECTION_FACTOR

/-- `calculate_file_size_factor` (`mod.rs:57`): fixed 20 MB for small files,
`round(ln(fs)·10)` for medium files, `floor(fs/100)·20` for large files.
`rln` stands for `f64::ln`. -/
def calculate_file_size_factor (rln : ℚ → ℚ) (args : Args) : ℚ :=
  if args.avg_file_size ≤ 10 then 20
  else if args.avg_file_size ≤ 100 then ((round (rln args.avg_file_size * 10) : ℤ) : ℚ)
  else ((⌊args.avg_file_size / 100⌋ : ℤ) : ℚ) * FILE_SIZE_FACTOR

/-- `calculate_metaspace` (`mod.rs:80`): sum of base, connection and file
factors, scaled by the safety margin, clamped below by
`MIN_METASPACE × margin`, above by `MAX_METASPACE`, then ceiled to `i32`. -/
def calculate_metaspace (rln : ℚ → ℚ) (args : Args) : ℤ :=
  let raw_total := calculate_base_metaspace args + calculate_connection_factor args
    + calculate_file_size_factor rln args
  let safety_margin := get_safety_margin args
  let adjusted_total := max (raw_total * safety_margin) (MIN_METASPACE * safety_margin)
  ⌈min adjusted_total MAX_METASPACE⌉

/-- `calculate_metaspace` of the self-contained legacy binary
(`main.rs:122`): base 512 scaled by complexity, 50 MB per 1000 connections,
a capped file-size increment, 1.25 safety factor, clamp to [256, 2048]. -/
def main_calculate_metaspace (args : Args) : ℤ :=
  let base : ℚ :=
    if args.complexity = "low" then 512 * 0.8
    else if args.complexity = "high" then 512 * 1.5
    else 512
  let connection_factor := ((⌊((args.expected_connections : ℚ)) / 1000⌋ : ℤ) : ℚ) * 50
  let file_size_factor := min (args.avg_file_size / 50) 4 * 50
  let total := (base + connection_factor + file_size_factor) * 1.25
  ⌈min (max total 256) 2048⌉

/-! ### Memory-safety analyzer (`analysis/safety.rs`) -/

/-- `calculate_direct_mem_per_conn` (`safety.rs:42`): tiered read buffer
(KB), write buffer at 1.5×, 100 KB fixed overhead, both converted to GB. -/
def calculate_direct_mem_per_conn (file_size : ℚ) : ℚ × ℚ :=
  let read_buffer : ℚ :=
    if file_size ≤ 10 then 128
    else if file_size ≤ 100 then 512
    else min 1024 (file_size * 0.01)
  let write_buffer := read_buffer * 1.5
  let overhead : ℚ := 100
  (read_buffer / 1024 / 1024, (write_buffer + overhead) / 1024 / 1024)

/-- `HEAP_PER_CONN` (`safety.rs:67` and `safety.rs:254`): 384 KB per
connection, in GB. -/
def HEAP_PER_CONN : ℚ := 384 / 1024 / 1024

/-- Normal-load direct-memory usage before the memory-mapping reduction
(`safety.rs:72`): connections × (read + write buffer GB). -/
def normal_direct_usage_raw (args : Args) : ℚ :=
  (args.expected_connections : ℚ) *
    ((calculate_direct_mem_per_conn args.avg_file_size).1
      + (calculate_direct_mem_per_conn args.avg_file_size).2)

/-- `mem_map_reduction` (`safety.rs:76`): halve direct memory for large
files when memory mapping is enabled. -/
def mem_map_reduction (args : Args) : ℚ :=
  if args.avg_file_size > 100 ∧ args.enable_memory_mapping then 0.5 else 1

/-- `normal_direct_usage` after the reduction (`safety.rs:81`). -/
def normal_direct_usage (args : Args) : ℚ :=
  normal_direct_usage_raw args * mem_map_reduction args

/-- `normal_heap_usage` (`safety.rs:82`). -/
def normal_heap_usage (args : Args) : ℚ :=
  (args.expected_connections : ℚ) * HEAP_PER_CONN

/-- `burst_connections` (`safety.rs:85` and `safety.rs:265`):
`(expected_connections as f64 * burst_factor) as usize`. -/
def burst_connections (args : Args) : ℕ :=
  ratToUsize ((args.expected_connections : ℚ) * args.burst_factor)

/-- `burst_direct_usage` (`safety.rs:87`); note the source applies no
memory-mapping reduction here. -/
def burst_direct_usage (args : Args) : ℚ :=
  (burst_connections args : ℚ) *
    ((calculate_direct_mem_per_conn args.avg_file_size).1
      + (calculate_direct_mem_per_conn args.avg_file_size).2)

/-- `burst_heap_usage` (`safety.rs:88`). -/
def burst_heap_usage (args : Args) : ℚ :=
  (burst_connections args : ℚ) * HEAP_PER_CONN

/-- `JVM_NATIVE_RATIO` (`safety.rs:91`): fraction of each budget reserved
for JVM native memory. -/
def jvm_native_ratio : ℚ := 0.15

/-- `available_heap` (`safety.rs:92`). -/
def available_heap (heap_mem_gb : ℚ) : ℚ := heap_mem_gb * (1 - jvm_native_ratio)

/-- `available_direct` (`safety.rs:93`). -/
def available_direct (direct_mem_gb : ℚ) : ℚ := direct_mem_gb * (1 - jvm_native_ratio)

/-- `heap_safety` (`safety.rs:96`): `1 − min(usage / (available × 0.7), 1)`. -/
def heap_safety (args : Args) (heap_mem_gb : ℚ) : ℚ :=
  1 - min (normal_heap_usage args / (available_heap heap_mem_gb * 0.7)) 1

/-- `direct_mem_safety` (`safety.rs:97`). -/
def direct_mem_safety (args : Args) (direct_mem_gb : ℚ) : ℚ :=
  1 - min (normal_direct_usage args / (available_direct direct_mem_gb * 0.7)) 1

/-- Overall risk level tag (source strings 低风险 / 中风险 / 高风险). -/
inductive RiskLevel
  | low
  | medium
  | high
deriving DecidableEq

/-- `risk_level` match (`safety.rs:100`): low needs both ratios above 0.4,
medium needs at least one above 0.2, everything else is high. -/
def risk_level (args : Args) (direct_mem_gb heap_mem_gb : ℚ) : RiskLevel :=
  if heap_safety args heap_mem_gb > 0.4 ∧ direct_mem_safety args direct_mem_gb > 0.4 then
    RiskLevel.low
  else if heap_safety args heap_mem_gb > 0.2 ∨ direct_mem_safety args direct_mem_gb > 0.2 then
    RiskLevel.medium
  else RiskLevel.high

/-- Scenario status tag (source strings ✅安全 / ⚠️警告 / 🔥危险). -/
inductive Status
  | safe
  | warning
  | danger
deriving DecidableEq

/-- `status_label` of the library analyzer (`safety.rs:365`): ratios are
taken against 0.7× the budget, safe needs both below 0.6, danger needs both
at or above 0.8. -/
def status_label (heap_usage heap_max direct_usage direct_max : ℚ) : Status :=
  let effective_heap_max := heap_max * 0.7
  let effective_direct_max := direct_max * 0.7
  let heap_ratio := heap_usage / effective_heap_max
  let direct_ratio := direct_usage / effective_direct_max
  if heap_ratio < 0.6 ∧ direct_ratio < 0.6 then Status.safe
  else if heap_ratio < 0.8 ∨ direct_ratio < 0.8 then Status.warning
  else Status.danger

/-- `status_label` of the legacy binary (`main.rs:274`): raw-budget ratios
with thresholds 0.7 and 0.85. -/
def main_status_label (heap_usage heap_max direct_usage direct_max : ℚ) : Status :=
  if heap_usage / heap_max < 0.7 ∧ direct_usage / direct_max < 0.7 then Status.safe
  else if heap_usage / heap_max < 0.85 ∧ direct_usage / direct_max < 0.85 then Status.warning
  else Status.danger

/-- Simulated load scenario (`safety.rs:32`); the display name is omitted. -/
structure Scenario where
  connections : ℕ
  file_size : ℚ
  heap_usage : ℚ
  direct_mem_usage : ℚ
  status : Status

/-- The five scenarios pushed by `calculate_safety` (`safety.rs:110`-`182`),
in source order: sustained 24 h, normal load, burst, large-file, many small
files. -/
def scenarios_list (args : Args) (direct_mem_gb heap_mem_gb : ℚ) : List Scenario :=
  [ { connections := args.expected_connections
      file_size := args.avg_file_size
      heap_usage := normal_heap_usage args * 1.5
      direct_mem_usage := normal_direct_usage args * 1.2
      status := status_label (normal_heap_usage args * 1.5) heap_mem_gb
        (normal_direct_usage args * 1.2) direct_mem_gb }
  , { connections := args.expected_connections
      file_size := args.avg_file_size
      heap_usage := normal_heap_usage args
      direct_mem_usage := normal_direct_usage args
      status := status_label (normal_heap_usage args) heap_mem_gb
        (normal_direct_usage args) direct_mem_gb }
  , { connections := burst_connections args
      file_size := args.avg_file_size
      heap_usage := burst_heap_usage args
      direct_mem_usage := burst_direct_usage args
      status := status_label (burst_heap_usage args) heap_mem_gb
        (burst_direct_usage args) direct_mem_gb }
  , { connections := ratToUsize ((args.expected_connections : ℚ) * 0.5)
      file_size := args.avg_file_size * 5
      heap_usage := normal_heap_usage args * 0.5
      direct_mem_usage := normal_direct_usage args * 0.5
      status := status_label (normal_heap_usage args * 0.5) heap_mem_gb
        (normal_direct_usage args * 0.5) direct_mem_gb }
  , { connections := args.expected_connections * 3
      file_size := args.avg_file_size / 10
      heap_usage := normal_heap_usage args * 1.5
      direct_mem_usage := normal_direct_usage args * 1.5
      status := status_label (normal_heap_usage args * 1.5) heap_mem_gb
        (normal_direct_usage args * 1.5) direct_mem_gb } ]

/-! ### Theoretical-limits calculator (`safety.rs:246`-`363`) -/

/-- `METASPACE_PER_CONN` (`safety.rs:255`): 64 KB per connection, in MB. -/
def METASPACE_PER_CONN : ℚ := 64 / 1024

/-- `CPU_PER_CONN` (`safety.rs:256`): CPU cores per connection. -/
def CPU_PER_CONN : ℚ := 0.0005

/-- `NET_PER_CONN` (`safety.rs:257`): Mbps per connection. -/
def NET_PER_CONN : ℚ := 0.2

/-- `DISK_IO_PER_CONN` (`safety.rs:258`): IOPS per connection. -/
def DISK_IO_PER_CONN : ℚ := 0.15

/-- `STABILITY_FACTOR` (`safety.rs:261`): use only 60 % of raw capacity. -/
def STABILITY_FACTOR : ℚ := 0.6

/-- `SAFE_MEM_USAGE` (`safety.rs:262`): conservative memory-use threshold. -/
def SAFE_MEM_USAGE : ℚ := 0.7

/-- Per-connection direct memory, read plus write buffer (`safety.rs:269`). -/
def direct_mem_per_conn (args : Args) : ℚ :=
  (calculate_direct_mem_per_conn args.avg_file_size).1
    + (calculate_direct_mem_per_conn args.avg_file_size).2

/-- `max_by_direct` (`safety.rs:272`): direct-memory connection ceiling,
with the memory-mapping branch dividing the per-connection cost by 0.7. -/
def max_by_direct (args : Args) (direct_mem_gb : ℚ) : ℕ :=
  if args.enable_memory_mapping ∧ args.avg_file_size > 100 then
    ratToUsize (direct_mem_gb * SAFE_MEM_USAGE / (direct_mem_per_conn args * 0.7)
      * STABILITY_FACTOR)
  else
    ratToUsize (direct_mem_gb * SAFE_MEM_USAGE / direct_mem_per_conn args
      * STABILITY_FACTOR)

/-- `max_by_heap` (`safety.rs:278`). -/
def max_by_heap (heap_mem_gb : ℚ) : ℕ :=
  ratToUsize (heap_mem_gb * SAFE_MEM_USAGE / HEAP_PER_CONN * STABILITY_FACTOR)

/-- `max_by_metaspace` (`safety.rs:282`): metaspace size (MB, from the
estimator) times 1024², divided by per-connection metaspace times expected
connections, scaled by the stability factor. -/
def max_by_metaspace (rln : ℚ → ℚ) (args : Args) : ℕ :=
  ratToUsize (((calculate_metaspace rln args : ℤ) : ℚ) * 1024 * 1024
    / (METASPACE_PER_CONN * (args.expected_connections : ℚ)) * STABILITY_FACTOR)

/-- `max_by_cpu` (`safety.rs:287`). -/
def max_by_cpu (args : Args) : ℕ :=
  ratToUsize ((args.cpu_cores : ℚ) / CPU_PER_CONN * STABILITY_FACTOR)

/-- `max_by_net` (`safety.rs:290`). -/
def max_by_net (args : Args) : ℕ :=
  ratToUsize (args.net_gbps * 1000 / NET_PER_CONN * STABILITY_FACTOR)

/-- `disk_iops` match (`safety.rs:293`): nvme 500 000, sata_ssd 100 000
(the >50 000-connection case differs only in advisory text), anything else
(sata_hdd) 200. -/
def disk_iops (args : Args) : ℚ :=
  if args.disk_type = "nvme" then 500000
  else if args.disk_type = "sata_ssd" then 100000
  else 200

/-- `max_by_disk` (`safety.rs:304`). -/
def max_by_disk (args : Args) : ℕ :=
  ratToUsize (disk_iops args / DISK_IO_PER_CONN * STABILITY_FACTOR)

/-- `max_connections` (`safety.rs:307`): chained minimum over the six
dimension ceilings and the burst-adjusted demand. -/
def max_connections (rln : ℚ → ℚ) (args : Args) (direct_mem_gb heap_mem_gb : ℚ) : ℕ :=
  min (min (min (min (min (min (max_by_direct args direct_mem_gb) (max_by_heap heap_mem_gb))
    (max_by_metaspace rln args)) (max_by_cpu args)) (max_by_net args)) (max_by_disk args))
    (burst_connections args)

/-- Uptime classification tag (source strings 12个月+ / 6-12个月 / <6个月). -/
inductive UptimeCategory
  | ample
  | adequate
  | insufficient
deriving DecidableEq

/-- `uptime_category` (`safety.rs:319`). -/
def uptime_category (rln : ℚ → ℚ) (args : Args) (direct_mem_gb heap_mem_gb : ℚ) :
    UptimeCategory :=
  if max_connections rln args direct_mem_gb heap_mem_gb ≥ burst_connections args * 2 then
    UptimeCategory.ample
  else if max_connections rln args direct_mem_gb heap_mem_gb ≥ burst_connections args then
    UptimeCategory.adequate
  else UptimeCategory.insufficient

/-- Bottleneck tag (source strings 直接内存 / 堆内存 / CPU资源 / 网络带宽 /
磁盘IO / 突发流量需求). Note the source has no metaspace branch. -/
inductive LimitingFactor
  | directMemory
  | heapMemory
  | cpuResource
  | networkBandwidth
  | diskResource
  | burstDemand
deriving DecidableEq

/-- `limiting_factor` chain (`safety.rs:328`): re-compares `max_connections`
against the ceilings in the order direct, heap, CPU, network, disk, falling
through to burst demand; the metaspace ceiling is never tested. -/
def limiting_factor (rln : ℚ → ℚ) (args : Args) (direct_mem_gb heap_mem_gb : ℚ) :
    LimitingFactor :=
  let mc := max_connections rln args direct_mem_gb heap_mem_gb
  if mc = max_by_direct args direct_mem_gb then LimitingFactor.directMemory
  else if mc = max_by_heap heap_mem_gb then LimitingFactor.heapMemory
  else if mc = max_by_cpu args then LimitingFactor.cpuResource
  else if mc = max_by_net args then LimitingFactor.networkBandwidth
  else if mc = max_by_disk args then LimitingFactor.diskResource
  else LimitingFactor.burstDemand

/-- `TheoreticalLimits` (`safety.rs:23`); the textual resource-breakdown
field is omitted as presentation. -/
structure TheoreticalLimits where
  max_connections : ℕ
  max_throughput : ℚ
  estimated_uptime : UptimeCategory
  limiting_factor : LimitingFactor
  burst_capacity : ℕ

/-- `calculate_theoretical_limits` (`safety.rs:246`). -/
def calculate_theoretical_limits (rln : ℚ → ℚ) (args : Args)
    (direct_mem_gb heap_mem_gb : ℚ) : TheoreticalLimits :=
  { max_connections := max_connections rln args direct_mem_gb heap_mem_gb
    max_throughput := (args.cpu_cores : ℚ) * STABILITY_FACTOR / 0.15
    estimated_uptime := uptime_category rln args direct_mem_gb heap_mem_gb
    limiting_factor := limiting_factor rln args direct_mem_gb heap_mem_gb
    burst_capacity :=
      ratToUsize ((max_connections rln args direct_mem_gb heap_mem_gb : ℚ) / STABILITY_FACTOR) }

/-- `SafetyAnalysis` (`safety.rs:13`); the recommendation strings are
omitted as presentation. -/
structure SafetyAnalysis where
  heap_safety : ℚ
  direct_mem_safety : ℚ
  risk_level : RiskLevel
  scenarios : List Scenario
  theoretical_limits : TheoreticalLimits

/-- `calculate_safety` (`safety.rs:66`): assembles the safety ratios, risk
level, scenario list and theoretical limits. -/
def calculate_safety (rln : ℚ → ℚ) (args : Args) (direct_mem_gb heap_mem_gb : ℚ) :
    SafetyAnalysis :=
  { heap_safety := heap_safety args heap_mem_gb
    direct_mem_safety := direct_mem_safety args direct_mem_gb
    risk_level := risk_level args direct_mem_gb heap_mem_gb
    scenarios := scenarios_list args direct_mem_gb heap_mem_gb
    theoretical_limits := calculate_theoretical_limits rln args direct_mem_gb heap_mem_gb }

/-! ### Concrete profiles used in the evaluations below -/

/-- Placeholder for the `f64::ln` parameter; every concrete profile below
has an average file size outside the `(10, 100]` branch, so the value is
never consulted. -/
def rln0 : ℚ → ℚ := fun _ => 0

/-- The documentation profile: RAM 32 GB, 16 cores, 1 Gbps, SATA SSD,
10 MB files, 1000 expected connections, burst 3, medium complexity. -/
def profile_base : Args :=
  ⟨32, 16, 1, "sata_ssd", 10, 1000, 3, true, false, "medium"⟩

/-- High-connection NVMe profile for which the metaspace ceiling is the
unique minimum dimension. -/
def profile_meta : Args :=
  ⟨32, 64, 20, "nvme", 10, 1000000, 1, false, false, "medium"⟩

/-- SATA-HDD profile with 60 000 expected connections, parametrized by the
network bandwidth in Gbps. -/
def profile_hdd (net : ℚ) : Args :=
  ⟨32, 16, net, "sata_hdd", 10, 60000, 3, true, false, "medium"⟩

/-- Profile with 2048 connections and 10 MB files, used with budgets chosen
so both normal-load usage ratios are exactly 1/2. -/
def profile_half : Args :=
  ⟨32, 16, 1, "sata_ssd", 10, 2048, 3, true, false, "medium"⟩

/-- Large-file profile (250 MB average) with memory mapping enabled. -/
def profile_mmap : Args :=
  ⟨32, 16, 1, "sata_ssd", 250, 1000, 3, true, true, "medium"⟩

/-! ### Helper lemmas -/

theorem ratToUsize_natCast (n : ℕ) : ratToUsize (n : ℚ) = n := by
  simp [ratToUsize, Int.floor_natCast]

theorem ratToUsize_mono {q r : ℚ} (h : q ≤ r) : ratToUsize q ≤ ratToUsize r :=
  Int.toNat_le_toNat (Int.floor_mono h)

theorem le_ratToUsize {n : ℕ} {q : ℚ} (h : (n : ℚ) ≤ q) : n ≤ ratToUsize q := by
  calc n = ratToUsize (n : ℚ) := (ratToUsize_natCast n).symm
    _ ≤ ratToUsize q := ratToUsize_mono h

theorem le_burst_connections (args : Args) (h : 1 ≤ args.burst_factor) :
    args.expected_connections ≤ burst_connections args := by
  apply le_ratToUsize
  exact le_mul_of_one_le_right (by positivity) h

theorem max_by_cpu_eq (args : Args) : max_by_cpu args = args.cpu_cores * 1200 := by
  have h : (args.cpu_cores : ℚ) / CPU_PER_CONN * STABILITY_FACTOR
      = ((args.cpu_cores * 1200 : ℕ) : ℚ) := by
    push_cast
    rw [CPU_PER_CONN, STABILITY_FACTOR]
    ring_nf
  rw [max_by_cpu, h, ratToUsize_natCast]

theorem max_by_disk_hdd (args : Args) (h : args.disk_type = "sata_hdd") :
    max_by_disk args = 800 := by
  have h1 : disk_iops args = 200 := by
    rw [disk_iops, h]
    simp
  have h2 : (200 : ℚ) / DISK_IO_PER_CONN * STABILITY_FACTOR = ((800 : ℕ) : ℚ) := by
    rw [DISK_IO_PER_CONN, STABILITY_FACTOR]
    norm_num
  rw [max_by_disk, h1, h2, ratToUsize_natCast]

theorem max_connections_le_direct (rln : ℚ → ℚ) (args : Args) (dm hm : ℚ) :
    max_connections rln args dm hm ≤ max_by_direct args dm :=
  le_trans (min_le_left _ _) (le_trans (min_le_left _ _) (le_trans (min_le_left _ _)
    (le_trans (min_le_left _ _) (le_trans (min_le_left _ _) (min_le_left _ _)))))

theorem max_connections_le_heap (rln : ℚ → ℚ) (args : Args) (dm hm : ℚ) :
    max_connections rln args dm hm ≤ max_by_heap hm :=
  le_trans (min_le_left _ _) (le_trans (min_le_left _ _) (le_trans (min_le_left _ _)
    (le_trans (min_le_left _ _) (le_trans (min_le_left _ _) (min_le_right _ _)))))

theorem max_connections_le_metaspace (rln : ℚ → ℚ) (args : Args) (dm hm : ℚ) :
    max_connections rln args dm hm ≤ max_by_metaspace rln args :=
  le_trans (min_le_left _ _) (le_trans (min_le_left _ _) (le_trans (min_le_left _ _)
    (le_trans (min_le_left _ _) (min_le_right _ _))))

theorem max_connections_le_cpu (rln : ℚ → ℚ) (args : Args) (dm hm : ℚ) :
    max_connections rln args dm hm ≤ max_by_cpu args :=
  le_trans (min_le_left _ _) (le_trans (min_le_left _ _) (le_trans (min_le_left _ _)
    (min_le_right _ _)))

theorem max_connections_le_net (rln : ℚ → ℚ) (args : Args) (dm hm : ℚ) :
    max_connections rln args dm hm ≤ max_by_net args :=
  le_trans (min_le_left _ _) (le_trans (min_le_left _ _) (min_le_right _ _))

theorem max_connections_le_disk (rln : ℚ → ℚ) (args : Args) (dm hm : ℚ) :
    max_connections rln args dm hm ≤ max_by_disk args :=
  le_trans (min_le_left _ _) (min_le_right _ _)

theorem max_connections_le_burst (rln : ℚ → ℚ) (args : Args) (dm hm : ℚ) :
    max_connections rln args dm hm ≤ burst_connections args :=
  min_le_right _ _

theorem get_safety_margin_ge (args : Args) : (1.3 : ℚ) ≤ get_safety_margin args := by
  rw [get_safety_margin]
  split_ifs <;> norm_num

theorem direct_mem_per_conn_pos (args : Args) : 0 < direct_mem_per_conn args := by
  rw [direct_mem_per_conn, calculate_direct_mem_per_conn]
  split_ifs with h1 h2
  · norm_num
  · norm_num
  · push_neg at h1 h2
    have h3 : (1 : ℚ) < args.avg_file_size * 0.01 := by linarith
    have h4 : (0 : ℚ) < min 1024 (args.avg_file_size * 0.01) := by
      apply lt_min <;> linarith
    have h5 : (0 : ℚ) < min 1024 (args.avg_file_size * 0.01) * 1.5 + 100 := by linarith
    positivity

theorem normal_direct_usage_nonneg (args : Args) : 0 ≤ normal_direct_usage args := by
  rw [normal_direct_usage, normal_direct_usage_raw, mem_map_reduction]
  have h1 := direct_mem_per_conn_pos args
  rw [direct_mem_per_conn] at h1
  have h2 : (0 : ℚ) ≤ (args.expected_connections : ℚ) := by positivity
  split_ifs <;> nlinarith

theorem normal_heap_usage_nonneg (args : Args) : 0 ≤ normal_heap_usage args := by
  rw [normal_heap_usage, HEAP_PER_CONN]
  positivity

/-! ### Claim theorems -/

/-- C1: for every profile and budgets, the `max_connections` field of the
`TheoreticalLimits` is the minimum of the seven evaluated values — the
direct, heap, metaspace, CPU, network and disk ceilings and the
burst-adjusted connection demand: it is at most each of them and equal to
one of them; in particular it never exceeds the burst-adjusted demand. -/
theorem max_connections_is_min_of_seven (rln : ℚ → ℚ) (args : Args) (dm hm : ℚ) :
    ((calculate_theoretical_limits rln args dm hm).max_connections ≤ max_by_direct args dm
      ∧ (calculate_theoretical_limits rln args dm hm).max_connections ≤ max_by_heap hm
      ∧ (calculate_theoretical_limits rln args dm hm).max_connections ≤ max_by_metaspace rln args
      ∧ (calculate_theoretical_limits rln args dm hm).max_connections ≤ max_by_cpu args
      ∧ (calculate_theoretical_limits rln args dm hm).max_connections ≤ max_by_net args
      ∧ (calculate_theoretical_limits rln args dm hm).max_connections ≤ max_by_disk args
      ∧ (calculate_theoretical_limits rln args dm hm).max_connections ≤ burst_connections args)
    ∧ ((calculate_theoretical_limits rln args dm hm).max_connections = max_by_direct args dm
      ∨ (calculate_theoretical_limits rln args dm hm).max_connections = max_by_heap hm
      ∨ (calculate_theoretical_limits rln args dm hm).max_connections = max_by_metaspace rln args
      ∨ (calculate_theoretical_limits rln args dm hm).max_connections = max_by_cpu args
      ∨ (calculate_theoretical_limits rln args dm hm).max_connections = max_by_net args
      ∨ (calculate_theoretical_limits rln args dm hm).max_connections = max_by_disk args
      ∨ (calculate_theoretical_limits rln args dm hm).max_connections = burst_connections args) := by
  have e : (calculate_theoretical_limits rln args dm hm).max_connections
      = max_connections rln args dm hm := rfl
  rw [e, max_connections]
  omega

/-- C4: the risk level of the `SafetyAnalysis` is low iff both safety
ratios exceed 0.4, medium iff it is not low and at least one ratio exceeds
0.2 (an OR tie-break), and high otherwise. -/
theorem risk_level_characterization (rln : ℚ → ℚ) (args : Args) (dm hm : ℚ) :
    ((calculate_safety rln args dm hm).risk_level = RiskLevel.low
      ↔ heap_safety args hm > 0.4 ∧ direct_mem_safety args dm > 0.4)
    ∧ ((calculate_safety rln args dm hm).risk_level = RiskLevel.medium
      ↔ ¬(heap_safety args hm > 0.4 ∧ direct_mem_safety args dm > 0.4)
        ∧ (heap_safety args hm > 0.2 ∨ direct_mem_safety args dm > 0.2))
    ∧ ((calculate_safety rln args dm hm).risk_level = RiskLevel.high
      ↔ ¬(heap_safety args hm > 0.4 ∧ direct_mem_safety args dm > 0.4)
        ∧ ¬(heap_safety args hm > 0.2 ∨ direct_mem_safety args dm > 0.2)) := by
  have e : (calculate_safety rln args dm hm).risk_level = risk_level args dm hm := rfl
  rw [e, risk_level]
  split_ifs with h1 h2 <;> simp_all

/-- C5: the recommended metaspace size always lies in
`[MIN_METASPACE, MAX_METASPACE] = [128, 3072]` MB, for every profile and
every value of the logarithm function. -/
theorem calculate_metaspace_in_range (rln : ℚ → ℚ) (args : Args) :
    128 ≤ calculate_metaspace rln args ∧ calculate_metaspace rln args ≤ 3072 := by
  rw [calculate_metaspace]
  have hmargin : (1.3 : ℚ) ≤ get_safety_margin args := get_safety_margin_ge args
  have h1 : (128 : ℚ) ≤ MIN_METASPACE * get_safety_margin args := by
    rw [MIN_METASPACE]
    nlinarith
  have h2 : (128 : ℚ) ≤
      min (max ((calculate_base_metaspace args + calculate_connection_factor args
          + calculate_file_size_factor rln args) * get_safety_margin args)
        (MIN_METASPACE * get_safety_margin args)) MAX_METASPACE := by
    apply le_min (le_trans h1 (le_max_right _ _))
    rw [MAX_METASPACE]
    norm_num
  constructor
  · have h3 := Int.le_ceil
      (min (max ((calculate_base_metaspace args + calculate_connection_factor args
          + calculate_file_size_factor rln args) * get_safety_margin args)
        (MIN_METASPACE * get_safety_margin args)) MAX_METASPACE)
    have h4 := le_trans h2 h3
    exact_mod_cast h4
  · rw [Int.ceil_le]
    apply le_trans (min_le_right _ _)
    rw [MAX_METASPACE]
    norm_num

/-- C6: given positive budgets, both safety ratios of the `SafetyAnalysis`
lie in `[0, 1]`, and each equals
`1 − min(1, usage / (budget × 0.85 × 0.7))` (0.85 being the fraction left
after the reserved JVM-native share). -/
theorem safety_ratios_in_unit_interval (rln : ℚ → ℚ) (args : Args) (dm hm : ℚ)
    (hdm : 0 < dm) (hhm : 0 < hm) :
    0 ≤ (calculate_safety rln args dm hm).heap_safety
    ∧ (calculate_safety rln args dm hm).heap_safety ≤ 1
    ∧ 0 ≤ (calculate_safety rln args dm hm).direct_mem_safety
    ∧ (calculate_safety rln args dm hm).direct_mem_safety ≤ 1
    ∧ (calculate_safety rln args dm hm).heap_safety
      = 1 - min 1 (normal_heap_usage args / (hm * 0.85 * 0.7))
    ∧ (calculate_safety rln args dm hm).direct_mem_safety
      = 1 - min 1 (normal_direct_usage args / (dm * 0.85 * 0.7)) := by
  have e1 : (calculate_safety rln args dm hm).heap_safety = heap_safety args hm := rfl
  have e2 : (calculate_safety rln args dm hm).direct_mem_safety
      = direct_mem_safety args dm := rfl
  have hdenh : available_heap hm * 0.7 = hm * 0.85 * 0.7 := by
    rw [available_heap, jvm_native_ratio]
    ring_nf
  have hdend : available_direct dm * 0.7 = dm * 0.85 * 0.7 := by
    rw [available_direct, jvm_native_ratio]
    ring_nf
  have hxh : 0 ≤ normal_heap_usage args / (available_heap hm * 0.7) := by
    apply div_nonneg (normal_heap_usage_nonneg args)
    rw [hdenh]
    nlinarith
  have hxd : 0 ≤ normal_direct_usage args / (available_direct dm * 0.7) := by
    apply div_nonneg (normal_direct_usage_nonneg args)
    rw [hdend]
    nlinarith
  rw [e1, e2, heap_safety, direct_mem_safety]
  refine ⟨?_, ?_, ?_, ?_, ?_, ?_⟩
  · have := min_le_right (normal_heap_usage args / (available_heap hm * 0.7)) (1 : ℚ)
    linarith
  · have := le_min hxh (zero_le_one (α := ℚ))
    linarith
  · have := min_le_right (normal_direct_usage args / (available_direct dm * 0.7)) (1 : ℚ)
    linarith
  · have := le_min hxd (zero_le_one (α := ℚ))
    linarith
  · rw [min_comm, hdenh]
  · rw [min_comm, hdend]

/-- C7: on a 250 MB average-file-size profile with at least one expected
connection, enabling the memory-mapping flag makes the normal-load
direct-memory usage strictly lower than with the flag disabled. -/
theorem memory_mapping_reduces_direct_usage (args : Args)
    (hfs : args.avg_file_size = 250) (hconn : 1 ≤ args.expected_connections) :
    normal_direct_usage { args with enable_memory_mapping := true }
      < normal_direct_usage { args with enable_memory_mapping := false } := by
  have eraw1 : normal_direct_usage_raw { args with enable_memory_mapping := true }
      = normal_direct_usage_raw args := rfl
  have eraw2 : normal_direct_usage_raw { args with enable_memory_mapping := false }
      = normal_direct_usage_raw args := rfl
  have hper : 0 < direct_mem_per_conn args := direct_mem_per_conn_pos args
  rw [direct_mem_per_conn] at hper
  have hraw : 0 < normal_direct_usage_raw args := by
    rw [normal_direct_usage_raw]
    have hc : (1 : ℚ) ≤ (args.expected_connections : ℚ) := by exact_mod_cast hconn
    nlinarith
  rw [normal_direct_usage, normal_direct_usage, eraw1, eraw2,
    mem_map_reduction, mem_map_reduction]
  have hcond1 : ({ args with enable_memory_mapping := true } : Args).avg_file_size > 100
      ∧ ({ args with enable_memory_mapping := true } : Args).enable_memory_mapping := by
    refine ⟨?_, rfl⟩
    show args.avg_file_size > 100
    rw [hfs]
    norm_num
  have hcond2 : ¬(({ args with enable_memory_mapping := false } : Args).avg_file_size > 100
      ∧ ({ args with enable_memory_mapping := false } : Args).enable_memory_mapping) := by
    rintro ⟨-, h⟩
    simp at h
  rw [if_pos hcond1, if_neg hcond2]
  nlinarith

/-- C10: whenever the profile has at least one expected connection and a
burst multiplier of at least 1, the estimated-uptime classification is
never the ample (12个月+) category, because `max_connections` is capped at
the burst-adjusted demand. -/
theorem uptime_never_ample (rln : ℚ → ℚ) (args : Args) (dm hm : ℚ)
    (hconn : 1 ≤ args.expected_connections) (hbf : 1 ≤ args.burst_factor) :
    (calculate_theoretical_limits rln args dm hm).estimated_uptime ≠ UptimeCategory.ample := by
  have e : (calculate_theoretical_limits rln args dm hm).estimated_uptime
      = uptime_category rln args dm hm := rfl
  rw [e, uptime_category]
  have h1 : max_connections rln args dm hm ≤ burst_connections args :=
    max_connections_le_burst rln args dm hm
  have h2 : 1 ≤ burst_connections args :=
    le_trans hconn (le_burst_connections args hbf)
  split_ifs with h3 h4
  · exfalso
    omega
  · simp
  · simp

/-- C2 (amended): the `limiting_factor` chain re-compares `max_connections`
with the direct, heap, CPU, network and disk ceilings in that order and
never tests the metaspace ceiling; whenever the smaller of the metaspace
ceiling and the burst-adjusted demand is strictly below all five tested
ceilings — in particular when the metaspace ceiling is the unique minimum —
the reported factor is burst demand. -/
theorem limiting_factor_falls_to_burst (rln : ℚ → ℚ) (args : Args) (dm hm : ℚ)
    (h1 : min (max_by_metaspace rln args) (burst_connections args) < max_by_direct args dm)
    (h2 : min (max_by_metaspace rln args) (burst_connections args) < max_by_heap hm)
    (h3 : min (max_by_metaspace rln args) (burst_connections args) < max_by_cpu args)
    (h4 : min (max_by_metaspace rln args) (burst_connections args) < max_by_net args)
    (h5 : min (max_by_metaspace rln args) (burst_connections args) < max_by_disk args) :
    (calculate_theoretical_limits rln args dm hm).limiting_factor
      = LimitingFactor.burstDemand := by
  have e : (calculate_theoretical_limits rln args dm hm).limiting_factor
      = limiting_factor rln args dm hm := by
    simp only [calculate_theoretical_limits]
  have hm1 : max_connections rln args dm hm ≤ max_by_metaspace rln args :=
    max_connections_le_metaspace rln args dm hm
  have hm2 : max_connections rln args dm hm ≤ burst_connections args :=
    max_connections_le_burst rln args dm hm
  have g1 : ¬(max_connections rln args dm hm = max_by_direct args dm) := by omega
  have g2 : ¬(max_connections rln args dm hm = max_by_heap hm) := by omega
  have g3 : ¬(max_connections rln args dm hm = max_by_cpu args) := by omega
  have g4 : ¬(max_connections rln args dm hm = max_by_net args) := by omega
  have g5 : ¬(max_connections rln args dm hm = max_by_disk args) := by omega
  rw [e, limiting_factor]
  rw [if_neg g1, if_neg g2, if_neg g3, if_neg g4, if_neg g5]

/-- C8 (amended): for a `sata_hdd` profile with 60 000 expected
connections, at least one core and a burst multiplier of at least 1, the
limiting factor is never CPU (the CPU ceiling, at least 1200, exceeds the
800-connection disk ceiling); and it is disk I/O — never burst demand,
whose 60 000+ connections exceed the disk ceiling — provided the direct,
heap and network ceilings exceed 800 and the metaspace ceiling is at least
800; low-bandwidth or tiny-budget profiles can instead make network or a
memory dimension the reported factor. -/
theorem hdd_60000_limiting_factor (rln : ℚ → ℚ) (args : Args) (dm hm : ℚ)
    (hd : args.disk_type = "sata_hdd") (hc : args.expected_connections = 60000)
    (hcore : 1 ≤ args.cpu_cores) (hbf : 1 ≤ args.burst_factor) :
    (calculate_theoretical_limits rln args dm hm).limiting_factor ≠ LimitingFactor.cpuResource
    ∧ (800 < max_by_direct args dm → 800 < max_by_heap hm →
        800 ≤ max_by_metaspace rln args → 800 < max_by_net args →
        (calculate_theoretical_limits rln args dm hm).limiting_factor
          = LimitingFactor.diskResource) := by
  have e : (calculate_theoretical_limits rln args dm hm).limiting_factor
      = limiting_factor rln args dm hm := by
    simp only [calculate_theoretical_limits]
  have hdisk : max_by_disk args = 800 := max_by_disk_hdd args hd
  have hcpu : 1200 ≤ max_by_cpu args := by
    rw [max_by_cpu_eq args]
    calc 1200 = 1 * 1200 := by norm_num
      _ ≤ args.cpu_cores * 1200 := Nat.mul_le_mul_right 1200 hcore
  have hmcd : max_connections rln args dm hm ≤ max_by_disk args :=
    max_connections_le_disk rln args dm hm
  have hne_cpu : ¬(max_connections rln args dm hm = max_by_cpu args) := by omega
  constructor
  · rw [e, limiting_factor]
    split_ifs <;> simp_all
  · intro b1 b2 b3 b4
    have hburst : 60000 ≤ burst_connections args := by
      have h := le_burst_connections args hbf
      rw [hc] at h
      exact h
    have hmceq : max_connections rln args dm hm = 800 := by
      rw [max_connections]
      omega
    have g1 : ¬(max_connections rln args dm hm = max_by_direct args dm) := by omega
    have g2 : ¬(max_connections rln args dm hm = max_by_heap hm) := by omega
    have g4 : ¬(max_connections rln args dm hm = max_by_net args) := by omega
    have g5 : max_connections rln args dm hm = max_by_disk args := by omega
    rw [e, limiting_factor]
    rw [if_neg g1, if_neg g2, if_neg hne_cpu, if_neg g4, if_pos g5]

/-! ### Evaluations at the concrete profiles -/

theorem direct_mem_per_conn_small (args : Args) (h : args.avg_file_size ≤ 10) :
    direct_mem_per_conn args = 105 / 262144 := by
  rw [direct_mem_per_conn, calculate_direct_mem_per_conn]
  simp only [if_pos h]
  norm_num

theorem max_by_direct_meta : max_by_direct profile_meta 32 = 33554 := by
  have hper : direct_mem_per_conn profile_meta = 105 / 262144 :=
    direct_mem_per_conn_small _ (by norm_num [profile_meta])
  have hcond : ¬(profile_meta.enable_memory_mapping ∧ profile_meta.avg_file_size > 100) := by
    rintro ⟨hmap, -⟩
    simp [profile_meta] at hmap
  rw [max_by_direct, if_neg hcond, hper, SAFE_MEM_USAGE, STABILITY_FACTOR, ratToUsize]
  norm_num
  decide

theorem max_by_heap_100 : max_by_heap 100 = 114688 := by
  rw [max_by_heap, HEAP_PER_CONN, SAFE_MEM_USAGE, STABILITY_FACTOR, ratToUsize]
  norm_num
  decide

theorem metaspace_meta : calculate_metaspace rln0 profile_meta = 3072 := by
  have h1 : get_complexity_factor profile_meta = 1 := by
    simp [get_complexity_factor, profile_meta]
    norm_num
  have h2 : get_safety_margin profile_meta = 1.3 := by
    simp only [get_safety_margin, profile_meta]
    norm_num
  have h3 : calculate_base_metaspace profile_meta = 384 := by
    rw [calculate_base_metaspace, h1, BASE_METASPACE, THREAD_FACTOR]
    simp [profile_meta]
    norm_num
  have h4 : calculate_connection_factor profile_meta = 30000 := by
    rw [calculate_connection_factor, CONNECTION_FACTOR, CONNECTIONS_BASE]
    simp only [profile_meta]
    norm_num
  have h5 : calculate_file_size_factor rln0 profile_meta = 20 := by
    rw [calculate_file_size_factor]
    simp only [profile_meta]
    norm_num
  simp only [calculate_metaspace]
  rw [h3, h4, h5, h2, MIN_METASPACE, MAX_METASPACE, Int.ceil_eq_iff]
  norm_num [min_def, max_def]

theorem max_by_metaspace_meta : max_by_metaspace rln0 profile_meta = 30923 := by
  rw [max_by_metaspace, metaspace_meta, METASPACE_PER_CONN, STABILITY_FACTOR, ratToUsize]
  simp only [profile_meta]
  norm_num
  decide

theorem max_by_cpu_meta : max_by_cpu profile_meta = 76800 := by
  rw [max_by_cpu_eq]
  norm_num [profile_meta]

theorem max_by_net_meta : max_by_net profile_meta = 60000 := by
  rw [max_by_net, NET_PER_CONN, STABILITY_FACTOR, ratToUsize]
  simp only [profile_meta]
  norm_num
  decide

theorem max_by_disk_meta : max_by_disk profile_meta = 2000000 := by
  have h1 : disk_iops profile_meta = 500000 := by
    rw [disk_iops]
    simp [profile_meta]
  rw [max_by_disk, h1, DISK_IO_PER_CONN, STABILITY_FACTOR, ratToUsize]
  norm_num
  decide

theorem burst_connections_meta : burst_connections profile_meta = 1000000 := by
  rw [burst_connections, ratToUsize]
  simp only [profile_meta]
  norm_num
  decide

theorem metaspace_base : calculate_metaspace rln0 profile_base = 440 := by
  have h1 : get_complexity_factor profile_base = 1 := by
    simp [get_complexity_factor, profile_base]
    norm_num
  have h2 : get_safety_margin profile_base = 1.3 := by
    simp only [get_safety_margin, profile_base]
    norm_num
  have h3 : calculate_base_metaspace profile_base = 288 := by
    rw [calculate_base_metaspace, h1, BASE_METASPACE, THREAD_FACTOR]
    simp [profile_base]
    norm_num
  have h4 : calculate_connection_factor profile_base = 30 := by
    rw [calculate_connection_factor, CONNECTION_FACTOR, CONNECTIONS_BASE]
    simp only [profile_base]
    norm_num
  have h5 : calculate_file_size_factor rln0 profile_base = 20 := by
    rw [calculate_file_size_factor]
    simp only [profile_base]
    norm_num
  simp only [calculate_metaspace]
  rw [h3, h4, h5, h2, MIN_METASPACE, MAX_METASPACE, Int.ceil_eq_iff]
  norm_num [min_def, max_def]

theorem main_metaspace_base : main_calculate_metaspace profile_base = 715 := by
  simp only [main_calculate_metaspace, profile_base]
  rw [if_neg (show ¬("medium" : String) = "low" by decide)]
  rw [if_neg (show ¬("medium" : String) = "high" by decide)]
  rw [Int.ceil_eq_iff]
  norm_num [min_def, max_def]

theorem metaspace_hdd (net : ℚ) : calculate_metaspace rln0 (profile_hdd net) = 2741 := by
  have h1 : get_complexity_factor (profile_hdd net) = 1 := by
    simp [get_complexity_factor, profile_hdd]
    norm_num
  have h2 : get_safety_margin (profile_hdd net) = 1.3 := by
    simp only [get_safety_margin, profile_hdd]
    norm_num
  have h3 : calculate_base_metaspace (profile_hdd net) = 288 := by
    rw [calculate_base_metaspace, h1, BASE_METASPACE, THREAD_FACTOR]
    simp [profile_hdd]
    norm_num
  have h4 : calculate_connection_factor (profile_hdd net) = 1800 := by
    rw [calculate_connection_factor, CONNECTION_FACTOR, CONNECTIONS_BASE]
    simp only [profile_hdd]
    norm_num
  have h5 : calculate_file_size_factor rln0 (profile_hdd net) = 20 := by
    rw [calculate_file_size_factor]
    simp only [profile_hdd]
    norm_num
  simp only [calculate_metaspace]
  rw [h3, h4, h5, h2, MIN_METASPACE, MAX_METASPACE, Int.ceil_eq_iff]
  norm_num [min_def, max_def]

theorem max_by_direct_hdd (net : ℚ) : max_by_direct (profile_hdd net) (64/25) = 2684 := by
  have hper : direct_mem_per_conn (profile_hdd net) = 105 / 262144 :=
    direct_mem_per_conn_small _ (by norm_num [profile_hdd])
  have hcond : ¬((profile_hdd net).enable_memory_mapping
      ∧ (profile_hdd net).avg_file_size > 100) := by
    rintro ⟨hmap, -⟩
    simp [profile_hdd] at hmap
  rw [max_by_direct, if_neg hcond, hper, SAFE_MEM_USAGE, STABILITY_FACTOR, ratToUsize]
  norm_num
  decide

theorem max_by_heap_hdd : max_by_heap (56/5) = 12845 := by
  rw [max_by_heap, HEAP_PER_CONN, SAFE_MEM_USAGE, STABILITY_FACTOR, ratToUsize]
  norm_num
  decide

theorem max_by_metaspace_hdd (net : ℚ) :
    max_by_metaspace rln0 (profile_hdd net) = 459863 := by
  rw [max_by_metaspace, metaspace_hdd, METASPACE_PER_CONN, STABILITY_FACTOR, ratToUsize]
  simp only [profile_hdd]
  norm_num
  decide

theorem max_by_cpu_hdd (net : ℚ) : max_by_cpu (profile_hdd net) = 19200 := by
  rw [max_by_cpu_eq]
  norm_num [profile_hdd]

theorem max_by_net_hdd_full : max_by_net (profile_hdd 1) = 3000 := by
  rw [max_by_net, NET_PER_CONN, STABILITY_FACTOR, ratToUsize]
  simp only [profile_hdd]
  norm_num
  decide

theorem max_by_net_hdd_slow : max_by_net (profile_hdd 0.1) = 300 := by
  rw [max_by_net, NET_PER_CONN, STABILITY_FACTOR, ratToUsize]
  simp only [profile_hdd]
  norm_num
  decide

theorem max_by_disk_hdd_val (net : ℚ) : max_by_disk (profile_hdd net) = 800 :=
  max_by_disk_hdd _ rfl

theorem burst_connections_hdd (net : ℚ) : burst_connections (profile_hdd net) = 180000 := by
  rw [burst_connections, ratToUsize]
  simp only [profile_hdd]
  norm_num
  decide

theorem normal_heap_usage_half : normal_heap_usage profile_half = 3/4 := by
  rw [normal_heap_usage, HEAP_PER_CONN]
  simp only [profile_half]
  norm_num

theorem normal_direct_usage_half : normal_direct_usage profile_half = 105/128 := by
  have hcond : ¬(profile_half.avg_file_size > 100 ∧ profile_half.enable_memory_mapping) := by
    rintro ⟨hfs, -⟩
    simp [profile_half] at hfs
    norm_num at hfs
  rw [normal_direct_usage, mem_map_reduction, if_neg hcond, normal_direct_usage_raw,
    calculate_direct_mem_per_conn]
  simp only [profile_half]
  norm_num

/-- C2 (counterexample): on `profile_meta` with budgets 32 GB direct and
100 GB heap, the metaspace ceiling (30923) is strictly below all six other
values, i.e. it is the unique minimum, yet the reported limiting factor is
burst demand — not metaspace — even though `max_connections` is strictly
below the burst-adjusted demand. -/
theorem metaspace_bottleneck_reports_burst :
    max_by_metaspace rln0 profile_meta < max_by_direct profile_meta 32
    ∧ max_by_metaspace rln0 profile_meta < max_by_heap 100
    ∧ max_by_metaspace rln0 profile_meta < max_by_cpu profile_meta
    ∧ max_by_metaspace rln0 profile_meta < max_by_net profile_meta
    ∧ max_by_metaspace rln0 profile_meta < max_by_disk profile_meta
    ∧ max_by_metaspace rln0 profile_meta < burst_connections profile_meta
    ∧ (calculate_theoretical_limits rln0 profile_meta 32 100).max_connections
        < burst_connections profile_meta
    ∧ (calculate_theoretical_limits rln0 profile_meta 32 100).limiting_factor
        = LimitingFactor.burstDemand := by
  have ex : (calculate_theoretical_limits rln0 profile_meta 32 100).max_connections
      = max_connections rln0 profile_meta 32 100 := by
    simp only [calculate_theoretical_limits]
  have ey : (calculate_theoretical_limits rln0 profile_meta 32 100).limiting_factor
      = limiting_factor rln0 profile_meta 32 100 := by
    simp only [calculate_theoretical_limits]
  rw [ex, ey, limiting_factor, max_connections, max_by_direct_meta, max_by_heap_100,
    max_by_metaspace_meta, max_by_cpu_meta, max_by_net_meta, max_by_disk_meta,
    burst_connections_meta]
  decide

/-- C2 (witness): the amended limiting-factor theorem applies to
`profile_meta`, whose metaspace ceiling undercuts the five tested ceilings,
and there the factor is indeed reported as burst demand. -/
theorem limiting_factor_falls_to_burst_check :
    (min (max_by_metaspace rln0 profile_meta) (burst_connections profile_meta)
        < max_by_direct profile_meta 32
      ∧ min (max_by_metaspace rln0 profile_meta) (burst_connections profile_meta)
        < max_by_heap 100
      ∧ min (max_by_metaspace rln0 profile_meta) (burst_connections profile_meta)
        < max_by_cpu profile_meta
      ∧ min (max_by_metaspace rln0 profile_meta) (burst_connections profile_meta)
        < max_by_net profile_meta
      ∧ min (max_by_metaspace rln0 profile_meta) (burst_connections profile_meta)
        < max_by_disk profile_meta)
    ∧ (calculate_theoretical_limits rln0 profile_meta 32 100).limiting_factor
        = LimitingFactor.burstDemand := by
  have h1 : min (max_by_metaspace rln0 profile_meta) (burst_connections profile_meta)
      < max_by_direct profile_meta 32 := by
    rw [max_by_metaspace_meta, burst_connections_meta, max_by_direct_meta]
    decide
  have h2 : min (max_by_metaspace rln0 profile_meta) (burst_connections profile_meta)
      < max_by_heap 100 := by
    rw [max_by_metaspace_meta, burst_connections_meta, max_by_heap_100]
    decide
  have h3 : min (max_by_metaspace rln0 profile_meta) (burst_connections profile_meta)
      < max_by_cpu profile_meta := by
    rw [max_by_metaspace_meta, burst_connections_meta, max_by_cpu_meta]
    decide
  have h4 : min (max_by_metaspace rln0 profile_meta) (burst_connections profile_meta)
      < max_by_net profile_meta := by
    rw [max_by_metaspace_meta, burst_connections_meta, max_by_net_meta]
    decide
  have h5 : min (max_by_metaspace rln0 profile_meta) (burst_connections profile_meta)
      < max_by_disk profile_meta := by
    rw [max_by_metaspace_meta, burst_connections_meta, max_by_disk_meta]
    decide
  exact ⟨⟨h1, h2, h3, h4, h5⟩,
    limiting_factor_falls_to_burst rln0 profile_meta 32 100 h1 h2 h3 h4 h5⟩

/-- C8 (counterexample): a `sata_hdd` profile with 60 000 expected
connections but only 0.1 Gbps of bandwidth reports network bandwidth — not
disk I/O or burst demand — as the limiting factor. -/
theorem hdd_low_net_reports_network :
    (profile_hdd 0.1).disk_type = "sata_hdd"
    ∧ (profile_hdd 0.1).expected_connections = 60000
    ∧ (calculate_theoretical_limits rln0 (profile_hdd 0.1) (64/25) (56/5)).limiting_factor
        = LimitingFactor.networkBandwidth := by
  refine ⟨rfl, rfl, ?_⟩
  have ey : (calculate_theoretical_limits rln0 (profile_hdd 0.1) (64/25) (56/5)).limiting_factor
      = limiting_factor rln0 (profile_hdd 0.1) (64/25) (56/5) := by
    simp only [calculate_theoretical_limits]
  rw [ey, limiting_factor, max_connections, max_by_direct_hdd, max_by_heap_hdd,
    max_by_metaspace_hdd, max_by_cpu_hdd, max_by_net_hdd_slow, max_by_disk_hdd_val,
    burst_connections_hdd]
  decide

/-- C8 (witness): the amended theorem applies to the 1 Gbps `sata_hdd`
profile: all four untested ceilings clear the 800-connection disk ceiling,
the factor is disk I/O and in particular not CPU. -/
theorem hdd_60000_limiting_factor_check :
    ((profile_hdd 1).disk_type = "sata_hdd"
      ∧ (profile_hdd 1).expected_connections = 60000
      ∧ 1 ≤ (profile_hdd 1).cpu_cores ∧ (1 : ℚ) ≤ (profile_hdd 1).burst_factor)
    ∧ (800 < max_by_direct (profile_hdd 1) (64/25) ∧ 800 < max_by_heap (56/5)
      ∧ 800 ≤ max_by_metaspace rln0 (profile_hdd 1) ∧ 800 < max_by_net (profile_hdd 1))
    ∧ (calculate_theoretical_limits rln0 (profile_hdd 1) (64/25) (56/5)).limiting_factor
        ≠ LimitingFactor.cpuResource
    ∧ (calculate_theoretical_limits rln0 (profile_hdd 1) (64/25) (56/5)).limiting_factor
        = LimitingFactor.diskResource := by
  have hcore : 1 ≤ (profile_hdd 1).cpu_cores := by decide
  have hbf : (1 : ℚ) ≤ (profile_hdd 1).burst_factor := by norm_num [profile_hdd]
  have c1 : 800 < max_by_direct (profile_hdd 1) (64/25) := by
    rw [max_by_direct_hdd]
    decide
  have c2 : 800 < max_by_heap (56/5) := by
    rw [max_by_heap_hdd]
    decide
  have c3 : 800 ≤ max_by_metaspace rln0 (profile_hdd 1) := by
    rw [max_by_metaspace_hdd]
    decide
  have c4 : 800 < max_by_net (profile_hdd 1) := by
    rw [max_by_net_hdd_full]
    decide
  have H := hdd_60000_limiting_factor rln0 (profile_hdd 1) (64/25) (56/5) rfl rfl hcore hbf
  exact ⟨⟨rfl, rfl, hcore, hbf⟩, ⟨c1, c2, c3, c4⟩, H.1, H.2 c1 c2 c3 c4⟩

/-- C3: on `profile_half` with budgets 105/64 GB direct and 3/2 GB heap,
the normal-load scenario produced by the analyzer stores usage figures at
exactly 50 % of each budget — both ratios well below 0.70 — yet its status
is warning, not safe: the library `status_label` works on 0.7-scaled
budgets with cutoffs 0.6/0.8 (i.e. 42 %/56 % of the raw budget, with danger
requiring both ratios high), contradicting the 0.70/0.85 legend the program
itself prints for these statuses. -/
theorem half_usage_scenario_is_warning :
    normal_heap_usage profile_half / (3/2) = 1/2
    ∧ normal_direct_usage profile_half / (105/64) = 1/2
    ∧ status_label (normal_heap_usage profile_half) (3/2)
        (normal_direct_usage profile_half) (105/64) = Status.warning
    ∧ (calculate_safety rln0 profile_half (105/64) (3/2)).scenarios.get? 1
        = some { connections := 2048, file_size := 10, heap_usage := 3/4,
                 direct_mem_usage := 105/128, status := Status.warning } := by
  have hh := normal_heap_usage_half
  have hd := normal_direct_usage_half
  have hs : status_label ((3 : ℚ)/4) (3/2) (105/128) (105/64) = Status.warning := by
    simp only [status_label]
    norm_num
  have e : (calculate_safety rln0 profile_half (105/64) (3/2)).scenarios
      = scenarios_list profile_half (105/64) (3/2) := by
    simp only [calculate_safety]
  refine ⟨by rw [hh]; norm_num, by rw [hd]; norm_num, by rw [hh, hd]; exact hs, ?_⟩
  rw [e, scenarios_list]
  simp only [List.get?_cons_succ, List.get?_cons_zero, Option.some.injEq]
  rw [hh, hd, hs]
  rfl

/-- C9 (counterexample): for the documentation profile the library
metaspace estimator returns 440 MB, which is not inside the 512–700 MB
window claimed for medium complexity. -/
theorem metaspace_base_outside_window :
    ¬(512 ≤ calculate_metaspace rln0 profile_base
      ∧ calculate_metaspace rln0 profile_base ≤ 700) := by
  rw [metaspace_base]
  decide

/-- C9 (amended): for the documentation profile the library estimator
computes 440 MB (288 base + 30 connection + 20 file, times the 1.3 margin)
— below the 512–700 MB window — while the legacy binary estimator computes
715 MB, above it. -/
theorem metaspace_values_at_base_profile :
    calculate_metaspace rln0 profile_base = 440
    ∧ main_calculate_metaspace profile_base = 715 :=
  ⟨metaspace_base, main_metaspace_base⟩

/-- C6 (witness): the unit-interval theorem instantiated at the
documentation profile with 4 GB direct and 12 GB heap budgets. -/
theorem safety_ratios_check :
    (0 : ℚ) < 4 ∧ (0 : ℚ) < 12
    ∧ (0 ≤ (calculate_safety rln0 profile_base 4 12).heap_safety
      ∧ (calculate_safety rln0 profile_base 4 12).heap_safety ≤ 1
      ∧ 0 ≤ (calculate_safety rln0 profile_base 4 12).direct_mem_safety
      ∧ (calculate_safety rln0 profile_base 4 12).direct_mem_safety ≤ 1
      ∧ (calculate_safety rln0 profile_base 4 12).heap_safety
        = 1 - min 1 (normal_heap_usage profile_base / (12 * 0.85 * 0.7))
      ∧ (calculate_safety rln0 profile_base 4 12).direct_mem_safety
        = 1 - min 1 (normal_direct_usage profile_base / (4 * 0.85 * 0.7))) :=
  ⟨by norm_num, by norm_num,
    safety_ratios_in_unit_interval rln0 profile_base 4 12 (by norm_num) (by norm_num)⟩

/-- C7 (witness): the memory-mapping comparison instantiated at the 250 MB
profile. -/
theorem memory_mapping_check :
    profile_mmap.avg_file_size = 250 ∧ 1 ≤ profile_mmap.expected_connections
    ∧ normal_direct_usage { profile_mmap with enable_memory_mapping := true }
      < normal_direct_usage { profile_mmap with enable_memory_mapping := false } :=
  ⟨rfl, by decide,
    memory_mapping_reduces_direct_usage profile_mmap rfl (by decide)⟩

/-- C10 (witness): the never-ample theorem instantiated at the
documentation profile with 4 GB direct and 12 GB heap budgets. -/
theorem uptime_never_ample_check :
    1 ≤ profile_base.expected_connections ∧ (1 : ℚ) ≤ profile_base.burst_factor
    ∧ (calculate_theoretical_limits rln0 profile_base 4 12).estimated_uptime
      ≠ UptimeCategory.ample :=
  ⟨by decide, by norm_num [profile_base],
    uptime_never_ample rln0 profile_base 4 12 (by decide) (by norm_num [profile_base])⟩

end SA
